import Mathlib

/-!
Verification of the adaptive extraction/download orchestration engine in
`backend/app.py` (a Flask service wrapping an external media extraction
engine).  The Python source is shallowly embedded below: pure helpers become
Lean functions, the per-request handlers become functions from an explicit
`ServerState` to a response together with the successor state, and the
external engine is an oracle parameter mapping the attempt index to that
attempt's result.  Strings are modeled as `List Char` (`Str`) so that
truncation and substring search are plain list operations; wall-clock time is
modeled in integral units (seconds for the cache and rate limiter, which the
source drives with `time.time()`; milliseconds for the progress hook, whose
source interval is 1.5 s).
-/

set_option autoImplicit false

/-- Character-list strings: the payload fields, URLs and error messages of the
source, with Python slicing `s[:n]` becoming `List.take n`. -/
abbrev Str := List Char

/-- Python `str(x)` applied to an `Optional` value: `None` prints as `"None"`
(used when the source interpolates `last_error` into an f-string). -/
def optionStr : Option Str → Str
  | some s => s
  | none => "None".toList

/-- Python `str.lower`, as used by the error classifiers and
`detect_platform`. -/
def lowerStr (s : Str) : Str := s.map Char.toLower

/-- Python substring containment `needle in hay`. -/
def containsSub (needle : Str) : Str → Bool
  | [] => needle.isEmpty
  | c :: t => needle.isPrefixOf (c :: t) || containsSub needle t

/-- Embeds `detect_platform` (app.py lines 431-447): keyword scan over the
lowercased URL. -/
def detect_platform (url : Str) : String :=
  let u := lowerStr url
  if containsSub ("youtube.com".toList) u || containsSub ("youtu.be".toList) u then "youtube"
  else if containsSub ("twitter.com".toList) u || containsSub ("x.com".toList) u then "twitter"
  else if containsSub ("facebook.com".toList) u || containsSub ("fb.watch".toList) u then "facebook"
  else if containsSub ("instagram.com".toList) u then "instagram"
  else if containsSub ("tiktok.com".toList) u then "tiktok"
  else if containsSub ("vimeo.com".toList) u then "vimeo"
  else "generic"

/-- Embeds `ultra_fast_hash` (app.py line 219-220).  The source computes a
16-hex-character xxh64 digest; every claim depends only on the digest being a
key derived deterministically from the input, so the digest computation is
modeled by the identity (which is moreover injective, collision-free). -/
def ultra_fast_hash (s : Str) : Str := s

/-- Point update of a `defaultdict(int)`-style counter table
(`failed_attempts`, app.py line 167). -/
def updateF (f : Str → Nat) (k : Str) (v : Nat) : Str → Nat :=
  fun q => if q = k then v else f q

/-- `MAX_FILE_SIZE` (app.py line 47): `20 * 1024 * 1024 * 1024` bytes. -/
def MAX_FILE_SIZE : Nat := 20 * 1024 * 1024 * 1024

/-- `MAX_CONCURRENT_DOWNLOADS` (app.py line 46). -/
def MAX_CONCURRENT_DOWNLOADS : Nat := 200

/-- `CACHE_DURATION` (app.py line 52): TTL of `memory_cache` in seconds. -/
def CACHE_DURATION : Nat := 3600

/-- Both fallback loops iterate `for attempt in range(6)` (app.py lines 462
and 599): six strategy configurations per job. -/
def STRATEGY_ATTEMPTS : Nat := 6

/-- `VALID_QUALITIES` (app.py line 179). -/
def VALID_QUALITIES : List String := ["best", "4k", "1080p", "720p", "480p", "audio"]

/-- Embeds `memory_cache = TTLCache(maxsize=10000, ttl=CACHE_DURATION)`
(app.py line 162) at the granularity the claims exercise: a keyed store of
values stamped with their expiry instant.  The `maxsize` bound and its LRU
eviction are not modeled; no claim touches them, and eviction never affects a
key that was just written (cachetools evicts before inserting). -/
def CacheMap (α : Type) : Type := Str → Option (α × Nat)

/-- Embeds `get_cached_data` (app.py lines 241-247): a present entry is
returned while the current time is before its expiry, otherwise the lookup is
a miss (cachetools checks expiry lazily on access).  The cache-hit/miss
metrics counters of the source are dropped: they do not feed back into any
behavior. -/
def get_cached_data {α : Type} (c : CacheMap α) (now : Nat) (key : Str) : Option α :=
  match c key with
  | some (v, expiry) => if now < expiry then some v else none
  | none => none

/-- Embeds `set_cached_data` (app.py lines 249-250): insert/overwrite with
expiry `now + CACHE_DURATION` (the TTL stamp `TTLCache` applies on
`__setitem__`). -/
def set_cached_data {α : Type} (c : CacheMap α) (now : Nat) (key : Str) (v : α) : CacheMap α :=
  fun q => if q = key then some (v, now + CACHE_DURATION) else c q

/-- One bucket of `request_limiter` (app.py line 166): a count and the window
end. -/
structure Limiter where
  count : Nat
  reset_time : Nat
deriving DecidableEq

/-- The per-endpoint thresholds table local to `is_rate_limited` (app.py
lines 770-776): `(count, window)` per endpoint class, with the
`{'count': 20, 'window': 60}` fallback for unknown endpoints. -/
def limits (endpoint : String) : Nat × Nat :=
  if endpoint = "info" then (30, 60)
  else if endpoint = "download" then (10, 60)
  else if endpoint = "status" then (100, 60)
  else (20, 60)

/-- Embeds `is_rate_limited` (app.py lines 768-791).  The bucket key is
`f"{client_ip}_{endpoint}"`; if the window has passed the bucket is reset to
a fresh window anchored at `now`; the count is then incremented and the
request is limited when the count exceeds the endpoint threshold, with
`retry_after` the remaining window time.  Returns
`((is_limited, retry_after), updated buckets)`. -/
def is_rate_limited (lims : String → Limiter) (client_ip endpoint : String) (now : Nat) :
    (Bool × Nat) × (String → Limiter) :=
  let cfg := limits endpoint
  let key := client_ip ++ "_" ++ endpoint
  let l0 := lims key
  let l1 := if l0.reset_time < now then { count := 0, reset_time := now + cfg.2 } else l0
  let l2 : Limiter := { l1 with count := l1.count + 1 }
  let isLim := decide (cfg.1 < l2.count)
  let retry := if isLim then l2.reset_time - now else 0
  ((isLim, retry), fun q => if q = key then l2 else lims q)

/-- The `status` field values a `download_status` record moves through
(app.py lines 588, 603, 689, 704). -/
inductive StatusKind where
  | initializing
  | downloading
  | completed
  | error
deriving DecidableEq

/-- One `download_status[download_id]` record (app.py line 164), with the
fields the handlers and the progress hook read or write.  Fields a given
state never sets are carried at their dictionary-absent defaults. -/
structure JobStatus where
  kind : StatusKind
  progress : Nat
  speed : Nat
  eta : Nat
  downloaded : Nat
  total : Nat
  file_path : Option Str
  filename : Option Str
  file_size : Nat
  errorMsg : Option Str
deriving DecidableEq

/-- The record written at the head of `download_with_enhanced_fallback`
(app.py lines 588-593). -/
def initStatus : JobStatus :=
  { kind := .initializing
    progress := 0
    speed := 0
    eta := 0
    downloaded := 0
    total := 0
    file_path := none
    filename := none
    file_size := 0
    errorMsg := none }

/-- The completion update (app.py lines 689-696): status `completed`,
progress 100, the artifact path, name and byte size. -/
def completedStatus (path : Str) (size : Nat) : JobStatus :=
  { initStatus with
    kind := .completed
    progress := 100
    file_path := some path
    filename := some path
    file_size := size }

/-- The error record (app.py lines 704-708): status `error` with the message
truncated to 200 characters. -/
def errorStatus (msg : Str) : JobStatus :=
  { initStatus with kind := .error, errorMsg := some (msg.take 200) }

/-- The active-download census of `start_enhanced_download` (app.py line
996): the number of records whose status is `downloading`. -/
def countDownloading (ds : List (String × JobStatus)) : Nat :=
  (ds.filter (fun e => e.2.kind == StatusKind.downloading)).length

/-- Dictionary lookup in the `download_status` table. -/
def lookupStatus : List (String × JobStatus) → String → Option JobStatus
  | [], _ => none
  | (k, v) :: t, id => if k = id then some v else lookupStatus t id

/-- A value of the processed-info dictionary: a string or a number. -/
inductive PValue where
  | s (v : Str)
  | n (v : Nat)
deriving DecidableEq

/-- The processed metadata payload: the key/value dictionary built at app.py
lines 557-566. -/
abbrev Payload := List (String × PValue)

/-- The raw record the external engine's `extract_info` returns, with the
keys the source reads (`info.get(...)`) plus the `description` and `formats`
keys such records carry upstream (a format is `(height, fps, tbr)`); absent
keys are `none`/`[]`. -/
structure RawInfo where
  title : Option Str
  duration : Option Nat
  uploader : Option Str
  thumbnail : Option Str
  view_count : Option Nat
  upload_date : Option Str
  description : Option Str
  formats : List (Nat × Nat × Nat)
deriving DecidableEq

/-- Embeds the `processed` dictionary (app.py lines 557-566): exactly eight
keys; `title` is `info.get('title', 'Unknown')[:100]`, `uploader` is
`info.get('uploader', 'Unknown')[:50]`, `extraction_method` records the
attempt index.  The raw record's `description` and `formats` are not read. -/
def processInfo (i : RawInfo) (platform : String) (attempt : Nat) : Payload :=
  [("title", .s ((i.title.getD ("Unknown".toList)).take 100)),
   ("duration", .n (i.duration.getD 0)),
   ("uploader", .s ((i.uploader.getD ("Unknown".toList)).take 50)),
   ("thumbnail", .s (i.thumbnail.getD [])),
   ("platform", .s platform.toList),
   ("extraction_method", .s (("enhanced_attempt_".toList) ++ (toString attempt).toList)),
   ("view_count", .n (i.view_count.getD 0)),
   ("upload_date", .s (i.upload_date.getD []))]

/-- Result of one metadata-extraction attempt against the external engine:
a truthy info record, a falsy `None` result (`ignoreerrors: True` makes the
engine swallow many failures this way), or a raised exception message. -/
inductive EngineResult where
  | info (i : RawInfo)
  | noInfo
  | exc (e : Str)
deriving DecidableEq

/-- Outcome of the extraction fallback loop, carrying the number of engine
invocations performed. -/
inductive ExtractOutcome where
  | ok (payload : Payload) (invocations : Nat)
  | failed (last : Option Str) (invocations : Nat)
deriving DecidableEq

/-- Embeds the attempt loop of `extract_info_with_enhanced_fallback` (app.py
lines 462-580): for each attempt index, invoke the engine with that
attempt's strategy configuration; a truthy record is processed and returned,
a falsy record just moves to the next attempt, and an exception is recorded
as `last_error` before the next attempt.  The per-attempt pacing sleeps and
backoff sleeps are pure delays with no state effect and are not modeled. -/
def extractLoop (platform : String) (engine : Nat → EngineResult) :
    List Nat → Option Str → Nat → ExtractOutcome
  | [], last, invoc => .failed last invoc
  | a :: rest, last, invoc =>
    match engine a with
    | .info i => .ok (processInfo i platform a) (invoc + 1)
    | .noInfo => extractLoop platform engine rest last (invoc + 1)
    | .exc e => extractLoop platform engine rest (some e) (invoc + 1)

/-- Cache key `f"info_{cache_key}"` (app.py lines 452-455). -/
def infoKeyOf (url : Str) : Str := ("info_".toList) ++ ultra_fast_hash url

/-- Embeds `extract_info_with_enhanced_fallback` (app.py lines 449-583):
check the cache first (a hit returns with zero engine invocations); on a
miss run the six-attempt loop; a success is written back to the cache; after
the loop fails the final exception carries the last recorded error.  Returns
the outcome and the successor cache. -/
def extract_info_with_enhanced_fallback (c : CacheMap Payload) (now : Nat)
    (url : Str) (engine : Nat → EngineResult) : ExtractOutcome × CacheMap Payload :=
  match get_cached_data c now (infoKeyOf url) with
  | some p => (.ok p 0, c)
  | none =>
    match extractLoop (detect_platform url) engine (List.range STRATEGY_ATTEMPTS) none 0 with
    | .ok p n => (.ok p n, set_cached_data c now (infoKeyOf url) p)
    | .failed last n => (.failed last n, c)

/-- The exception message raised when the extraction loop is exhausted
(app.py line 583). -/
def finalInfoError (last : Option Str) : Str :=
  ("Failed to extract info after all enhanced attempts. Error: ".toList) ++ optionStr last

/-- Responses of the `/api/info` handler. -/
inductive InfoResp where
  | urlRequired
  | rateLimited (retry_after : Nat)
  | tooManyFailures
  | ok (payload : Payload)
  | blocked (retry_after : Nat)
  | timedOut
  | unavailable
  | extractionFailed (msg : Str)
deriving DecidableEq

/-- Embeds the error classification of `get_enhanced_info` (app.py lines
937-967): bot-detection phrases map to a 429 with `retry_after` 60, timeouts
to 408, unavailable/private to 404, anything else to a 400 with the message
truncated to 150 characters. -/
def classifyInfoError (msg : Str) : InfoResp :=
  if containsSub ("Sign in to confirm".toList) msg || containsSub ("bot".toList) (lowerStr msg) then
    .blocked 60
  else if containsSub ("timeout".toList) (lowerStr msg) then .timedOut
  else if containsSub ("unavailable".toList) (lowerStr msg)
      || containsSub ("private".toList) (lowerStr msg) then .unavailable
  else .extractionFailed (msg.take 150)

/-- The process-wide mutable tables of app.py lines 162-167 that the claims
touch: the metadata cache, the per-(client, endpoint) rate-limit buckets, the
per-URL failure counters, and the job-status registry. -/
structure ServerState where
  memory_cache : CacheMap Payload
  request_limiter : String → Limiter
  failed_attempts : Str → Nat
  download_status : List (String × JobStatus)

/-- Embeds the `/api/info` handler `get_enhanced_info` (app.py lines
879-967): empty URL check, rate limiting (whose bucket update persists even
when a later check rejects), the failure-count gate at threshold 5, then the
extraction call; a success resets the URL's failure counter to zero, a
failure increments it and the final message is classified.  Returns the
response, the successor state, and the number of engine invocations made. -/
def get_enhanced_info (st : ServerState) (now : Nat) (client_ip : String) (url : Str)
    (engine : Nat → EngineResult) : InfoResp × ServerState × Nat :=
  if url = [] then (.urlRequired, st, 0)
  else
    let rl := is_rate_limited st.request_limiter client_ip "info" now
    let st1 : ServerState := { st with request_limiter := rl.2 }
    if rl.1.1 then (.rateLimited rl.1.2, st1, 0)
    else
      let key := ultra_fast_hash url
      if 5 < st1.failed_attempts key then (.tooManyFailures, st1, 0)
      else
        match extract_info_with_enhanced_fallback st1.memory_cache now url engine with
        | (.ok p n, c') =>
          (.ok p,
           { st1 with
             memory_cache := c'
             failed_attempts := updateF st1.failed_attempts key 0 },
           n)
        | (.failed last n, c') =>
          (classifyInfoError (finalInfoError last),
           { st1 with
             memory_cache := c'
             failed_attempts := updateF st1.failed_attempts key (st1.failed_attempts key + 1) },
           n)

/-- Result of one download attempt against the external engine: a candidate
artifact on disk (path and byte size, as found by the post-attempt directory
scan), no acceptable file, a per-attempt timeout (`asyncio.wait_for`,
300 s), or a raised exception message. -/
inductive DlAttemptResult where
  | file (path : Str) (size : Nat)
  | noFile
  | timedOut
  | exc (e : Str)
deriving DecidableEq

/-- The `last_error` recorded for a timed-out attempt (app.py line 640):
`f"Attempt {attempt + 1} timed out"`. -/
def attemptTimeoutMsg (k : Nat) : Str :=
  ("Attempt ".toList) ++ (toString k).toList ++ (" timed out".toList)

/-- Embeds the download attempt loop (app.py lines 599-644): per attempt,
invoke the engine; a produced file is accepted when its size exceeds 1000
bytes (the directory-scan filter at line 632), breaking the loop; otherwise
the loop continues, recording timeout or exception messages as `last_error`.
Returns `(accepted file, last_error, engine invocations)`. -/
def dlLoop (engine : Nat → DlAttemptResult) :
    List Nat → Option Str → Nat → (Option (Str × Nat)) × Option Str × Nat
  | [], last, invoc => (none, last, invoc)
  | a :: rest, last, invoc =>
    match engine a with
    | .file p sz =>
      if 1000 < sz then (some (p, sz), last, invoc + 1)
      else dlLoop engine rest last (invoc + 1)
    | .noFile => dlLoop engine rest last (invoc + 1)
    | .timedOut => dlLoop engine rest (some (attemptTimeoutMsg (a + 1))) (invoc + 1)
    | .exc e => dlLoop engine rest (some e) (invoc + 1)

/-- The error message surfaced when the external-command fallback also fails
(app.py lines 682-685): the inner raise interpolated into the outer one. -/
def externalCmdMsg (last : Option Str) : Str :=
  ("Download failed completely with enhanced methods: All enhanced download methods failed. Last error: ".toList)
    ++ optionStr last

/-- Embeds `download_with_enhanced_fallback` (app.py lines 585-709): run the
six-attempt loop; if no file was accepted, invoke the external `yt-dlp`
command once more (app.py lines 646-685, an additional engine invocation
whose directory scan applies no minimum-size filter); a file from either
path yields the `completed` record with the file's byte size (no check
against `MAX_FILE_SIZE` and no deletion occur); otherwise the `error` record
carries the composed message.  Returns the final status record and the total
number of engine invocations. -/
def download_with_enhanced_fallback (engine : Nat → DlAttemptResult)
    (cmdResult : Option (Str × Nat)) : JobStatus × Nat :=
  match dlLoop engine (List.range STRATEGY_ATTEMPTS) none 0 with
  | (some (p, sz), _, n) => (completedStatus p sz, n)
  | (none, last, n) =>
    match cmdResult with
    | some (p, sz) => (completedStatus p sz, n + 1)
    | none => (errorStatus (externalCmdMsg last), n + 1)

/-- Responses of the `/api/download` handler. -/
inductive DlStartResp where
  | urlRequired
  | invalidQuality
  | rateLimited (retry_after : Nat)
  | atCapacity (retry_after : Nat)
  | tooManyFailures
  | started (download_id : String)
deriving DecidableEq

/-- Embeds the admission pipeline of `start_enhanced_download` (app.py lines
969-1047): empty URL check, quality validation, rate limiting for the
`download` endpoint class, the capacity check
`active >= MAX_CONCURRENT_DOWNLOADS` rejecting with `retry_after` 60, and
the failure-count gate at threshold 3.  An admitted request answers
`started`; the job record itself is only created later by the spawned worker
(`download_with_enhanced_fallback`), so `download_status` is unchanged by the
handler in every case. -/
def start_enhanced_download (st : ServerState) (now : Nat) (client_ip : String)
    (url : Str) (quality : String) (newId : String) : DlStartResp × ServerState :=
  if url = [] then (.urlRequired, st)
  else if !(VALID_QUALITIES.contains quality) then (.invalidQuality, st)
  else
    let rl := is_rate_limited st.request_limiter client_ip "download" now
    let st1 : ServerState := { st with request_limiter := rl.2 }
    if rl.1.1 then (.rateLimited rl.1.2, st1)
    else if MAX_CONCURRENT_DOWNLOADS ≤ countDownloading st1.download_status then
      (.atCapacity 60, st1)
    else if 3 < st1.failed_attempts (ultra_fast_hash url) then (.tooManyFailures, st1)
    else (.started newId, st1)

/-- Embeds the spawned worker closure `start_enhanced_async_download`
(app.py lines 1017-1031): run the download; on normal completion reset the
URL's failure counter to zero, on failure increment it.  Returns the updated
counters and the job's final status record. -/
def start_enhanced_async_download (failed : Str → Nat) (url : Str)
    (engine : Nat → DlAttemptResult) (cmdResult : Option (Str × Nat)) :
    (Str → Nat) × JobStatus :=
  let r := download_with_enhanced_fallback engine cmdResult
  match r.1.kind with
  | .completed => (updateF failed (ultra_fast_hash url) 0, r.1)
  | _ => (updateF failed (ultra_fast_hash url) (failed (ultra_fast_hash url) + 1), r.1)

/-- `EnhancedProgressHook.update_interval` (app.py line 187), 1.5 s, in
milliseconds. -/
def UPDATE_INTERVAL : Nat := 1500

/-- The throttle state of one `EnhancedProgressHook` instance (app.py lines
181-188); each attempt constructs a fresh instance with `last_update = 0`. -/
structure HookState where
  last_update : Nat
deriving DecidableEq

/-- One progress callback payload from the engine (app.py lines 204-206):
whether the report is a `downloading` event, the resolved total bytes
(`total_bytes` or the estimate), the downloaded bytes, speed and eta. -/
structure ProgressData where
  downloading : Bool
  total_bytes : Nat
  downloaded_bytes : Nat
  speed : Nat
  eta : Nat
deriving DecidableEq

/-- Embeds `EnhancedProgressHook.__call__` (app.py lines 190-217): a call
within `UPDATE_INTERVAL` of the previous applied call returns unchanged;
otherwise the throttle timestamp advances and, for a `downloading` report
with positive total, the job record is overwritten with
`progress = min(99, downloaded * 100 / total)` (integer division) and the
fresh speed/eta/byte counts. -/
def enhancedProgressHook (hs : HookState) (now : Nat) (st : JobStatus) (d : ProgressData) :
    HookState × JobStatus :=
  if now - hs.last_update < UPDATE_INTERVAL then (hs, st)
  else
    let hs' : HookState := ⟨now⟩
    if d.downloading && decide (0 < d.total_bytes) then
      (hs', { st with
              kind := .downloading
              progress := min 99 (d.downloaded_bytes * 100 / d.total_bytes)
              speed := d.speed
              eta := d.eta
              downloaded := d.downloaded_bytes
              total := d.total_bytes })
    else (hs', st)

/-- Responses of the `/api/status/<id>` handler. -/
inductive StatusResp where
  | notFound
  | ok (st : JobStatus)
deriving DecidableEq

/-- Embeds `get_enhanced_status` (app.py lines 1055-1086): 404 for an
unknown id, otherwise a copy of the stored record with `file_path` popped.
The elapsed-time enrichment and advisory help strings added to the copy are
dropped: they do not alter the reported status kind, progress or artifact
fields.  The handler performs no filesystem access. -/
def get_enhanced_status (ds : List (String × JobStatus)) (id : String) : StatusResp :=
  match lookupStatus ds id with
  | none => .notFound
  | some st => .ok { st with file_path := none }

/-- The status kind a `/api/status` response surfaces, if any. -/
def reportedKind : StatusResp → Option StatusKind
  | .notFound => none
  | .ok st => some st.kind

/-- Responses of the `/api/file/<id>` handler. -/
inductive FileResp where
  | notFound
  | notReady
  | fileMissing
  | served (path : Str)
deriving DecidableEq

/-- Embeds `download_enhanced_file` (app.py lines 1088-1128): 404 for an
unknown id, 400 when the stored status is not `completed`, 404 when the
record's `file_path` is falsy or the file no longer exists on disk
(`fs` is the file-existence oracle), otherwise the file is streamed. -/
def download_enhanced_file (ds : List (String × JobStatus)) (fs : Str → Bool)
    (id : String) : FileResp :=
  match lookupStatus ds id with
  | none => .notFound
  | some st =>
    if st.kind = StatusKind.completed then
      match st.file_path with
      | none => .fileMissing
      | some p => if p = [] then .fileMissing else if fs p then .served p else .fileMissing
    else .notReady

/-! ### Concrete fixtures used by counterexamples and witnesses -/

/-- A cache with no entries. -/
def emptyCache : CacheMap Payload := fun _ => none

/-- An empty cache of numbers, for exercising the generic cache contract. -/
def emptyNatCache : CacheMap Nat := fun _ => none

/-- Idle server: fresh limiter buckets whose window ends at 1000, no recorded
failures, no jobs. -/
def idleState : ServerState :=
  { memory_cache := emptyCache
    request_limiter := fun _ => { count := 0, reset_time := 1000 }
    failed_attempts := fun _ => 0
    download_status := [] }

/-- A sample video URL. -/
def wUrl : Str := "https://youtu.be/dQw4w9WgXcQ".toList

/-- An engine whose every attempt raises a retryable (rate-limit) error. -/
def retryFailEngine : Nat → DlAttemptResult :=
  fun _ => .exc ("HTTP Error 429: Too Many Requests".toList)

/-- An engine whose every attempt raises an unavailable-content error. -/
def unavailEngine : Nat → EngineResult := fun _ => .exc ("Video unavailable".toList)

/-- A raw metadata record carrying a description and several formats sharing
a vertical resolution. -/
def sampleRaw : RawInfo :=
  { title := some ("A Title".toList)
    duration := some 10
    uploader := some ("Someone".toList)
    thumbnail := some ("http://thumb".toList)
    view_count := some 5
    upload_date := some ("20240101".toList)
    description := some ("A long description of the video".toList)
    formats := [(1080, 60, 4000), (1080, 30, 2000), (720, 30, 1000)] }

/-- An engine that succeeds immediately with `sampleRaw`. -/
def okEngine : Nat → EngineResult := fun _ => .info sampleRaw

/-- An engine whose first attempt yields an artifact one byte over
`MAX_FILE_SIZE`. -/
def bigFileEngine : Nat → DlAttemptResult :=
  fun _ => .file ("big.mp4".toList) (MAX_FILE_SIZE + 1)

/-- An engine whose first attempt yields a small, valid artifact. -/
def okFileEngine : Nat → DlAttemptResult := fun _ => .file ("video.mp4".toList) 5000

/-- A job record in the `downloading` state. -/
def dlStatus : JobStatus := { initStatus with kind := .downloading }

/-- A server at exactly `MAX_CONCURRENT_DOWNLOADS` active downloads. -/
def capState : ServerState :=
  { idleState with
    download_status :=
      (List.range MAX_CONCURRENT_DOWNLOADS).map (fun i => (toString i, dlStatus)) }

/-- A server whose sample URL has 6 recorded failures (above the metadata
gate threshold 5). -/
def gatedInfoState : ServerState := { idleState with failed_attempts := fun _ => 6 }

/-- A server whose sample URL has 4 recorded failures (above the download
gate threshold 3). -/
def gatedDlState : ServerState := { idleState with failed_attempts := fun _ => 4 }

/-- A registry holding one completed job whose artifact path no file backs. -/
def ghostDs : List (String × JobStatus) := [("job1", completedStatus ("gone.mp4".toList) 123456)]

/-- A filesystem with no files at all. -/
def emptyFs : Str → Bool := fun _ => false

/-- A filesystem containing exactly one path. -/
def singleFs (p : Str) : Str → Bool := fun q => decide (q = p)

/-- A registry holding one completed job whose artifact file does exist. -/
def servedDs : List (String × JobStatus) := [("j2", completedStatus ("vid.mp4".toList) 5000)]

/-! ### Helper lemmas -/

lemma range_six : List.range STRATEGY_ATTEMPTS = [0, 1, 2, 3, 4, 5] := by decide

/-- If every one of the six strategies raises, the extraction loop performs
exactly six engine invocations and fails with the last error. -/
lemma extractLoop_exhausts (platform : String) (engine : Nat → EngineResult) (errs : Nat → Str)
    (h : ∀ a, a < STRATEGY_ATTEMPTS → engine a = .exc (errs a)) :
    extractLoop platform engine (List.range STRATEGY_ATTEMPTS) none 0
      = .failed (some (errs 5)) STRATEGY_ATTEMPTS := by
  have h0 := h 0 (by decide)
  have h1 := h 1 (by decide)
  have h2 := h 2 (by decide)
  have h3 := h 3 (by decide)
  have h4 := h 4 (by decide)
  have h5 := h 5 (by decide)
  rw [range_six]
  simp [extractLoop, h0, h1, h2, h3, h4, h5, STRATEGY_ATTEMPTS]

/-- If every one of the six strategies raises, the download loop performs
exactly six engine invocations, accepts no file, and records the last
error. -/
lemma dlLoop_exhausts (engine : Nat → DlAttemptResult) (errs : Nat → Str)
    (h : ∀ a, a < STRATEGY_ATTEMPTS → engine a = .exc (errs a)) :
    dlLoop engine (List.range STRATEGY_ATTEMPTS) none 0
      = (none, some (errs 5), STRATEGY_ATTEMPTS) := by
  have h0 := h 0 (by decide)
  have h1 := h 1 (by decide)
  have h2 := h 2 (by decide)
  have h3 := h 3 (by decide)
  have h4 := h 4 (by decide)
  have h5 := h 5 (by decide)
  rw [range_six]
  simp [dlLoop, h0, h1, h2, h3, h4, h5, STRATEGY_ATTEMPTS]

/-- Route-level consequence: with an uncached URL and an engine whose every
attempt raises, `/api/info` classifies the final composed message, makes
exactly six engine invocations, and increments the URL's failure counter. -/
lemma get_enhanced_info_allFail (st : ServerState) (now : Nat) (ip : String) (url : Str)
    (engine : Nat → EngineResult) (errs : Nat → Str)
    (hurl : url ≠ [])
    (hlim : (is_rate_limited st.request_limiter ip "info" now).1.1 = false)
    (hfail : st.failed_attempts (ultra_fast_hash url) ≤ 5)
    (hcache : get_cached_data st.memory_cache now (infoKeyOf url) = none)
    (heng : ∀ a, a < STRATEGY_ATTEMPTS → engine a = .exc (errs a)) :
    (get_enhanced_info st now ip url engine).1 = classifyInfoError (finalInfoError (some (errs 5)))
    ∧ (get_enhanced_info st now ip url engine).2.2 = STRATEGY_ATTEMPTS
    ∧ (get_enhanced_info st now ip url engine).2.1.failed_attempts (ultra_fast_hash url)
        = st.failed_attempts (ultra_fast_hash url) + 1 := by
  have hloop := extractLoop_exhausts (detect_platform url) engine errs heng
  have hnotgate : ¬ 5 < st.failed_attempts (ultra_fast_hash url) := by omega
  simp only [get_enhanced_info, extract_info_with_enhanced_fallback, if_neg hurl, hlim,
    Bool.false_eq_true, if_false, hcache, hloop, if_neg hnotgate, updateF, if_pos rfl]
  simp [updateF]

/-! ### Claim theorems -/

/-- C1 (counterexample).  The claim says a job whose strategies all fail
retryably errors after exactly N attempts against the engine, never more,
with N the size of the strategy catalog (6 in the source).  On the download
path this is false: after the six catalog strategies fail, the source makes
one further engine invocation through the external `yt-dlp` command (app.py
lines 646-685), so the job errors only after 7 invocations. -/
theorem c1_catalog_overrun_cex :
    (download_with_enhanced_fallback retryFailEngine none).2 = STRATEGY_ATTEMPTS + 1
    ∧ (download_with_enhanced_fallback retryFailEngine none).1.kind = StatusKind.error
    ∧ STRATEGY_ATTEMPTS + 1 ≠ STRATEGY_ATTEMPTS := by decide

/-- C1 (amended).  When all N = 6 catalog strategies fail with retryable
classifications: the metadata loop errors after exactly 6 engine
invocations, surfacing the last error; the download path additionally
invokes the external command once, erroring after exactly 7 invocations. -/
theorem c1_exhaustion_amended :
    (∀ (platform : String) (engine : Nat → EngineResult) (errs : Nat → Str),
      (∀ a, a < STRATEGY_ATTEMPTS → engine a = .exc (errs a)) →
      extractLoop platform engine (List.range STRATEGY_ATTEMPTS) none 0
        = .failed (some (errs 5)) STRATEGY_ATTEMPTS)
    ∧ (∀ (engine : Nat → DlAttemptResult) (errs : Nat → Str),
      (∀ a, a < STRATEGY_ATTEMPTS → engine a = .exc (errs a)) →
      download_with_enhanced_fallback engine none
        = (errorStatus (externalCmdMsg (some (errs 5))), STRATEGY_ATTEMPTS + 1)) := by
  constructor
  · intro platform engine errs h
    exact extractLoop_exhausts platform engine errs h
  · intro engine errs h
    have hloop := dlLoop_exhausts engine errs h
    simp [download_with_enhanced_fallback, hloop]

/-- Witness for C1 (amended) at concrete engines that fail every attempt. -/
theorem c1_exhaustion_amended_witness :
    extractLoop "youtube" (fun _ => EngineResult.exc ("boom".toList))
        (List.range STRATEGY_ATTEMPTS) none 0
      = .failed (some ("boom".toList)) STRATEGY_ATTEMPTS
    ∧ download_with_enhanced_fallback retryFailEngine none
      = (errorStatus (externalCmdMsg (some ("HTTP Error 429: Too Many Requests".toList))),
         STRATEGY_ATTEMPTS + 1) :=
  ⟨c1_exhaustion_amended.1 "youtube" (fun _ => EngineResult.exc ("boom".toList))
      (fun _ => "boom".toList) (fun _ _ => rfl),
   c1_exhaustion_amended.2 retryFailEngine
      (fun _ => "HTTP Error 429: Too Many Requests".toList) (fun _ _ => rfl)⟩

/-- C2 (counterexample).  The claim says an attempt classified Unavailable
terminates the job immediately with no further attempt.  On an idle server,
for an uncached URL whose every extraction attempt raises `Video
unavailable`, `/api/info` still makes all 6 engine invocations — not 1 —
before answering the unavailable error. -/
theorem c2_unavailable_retried_cex :
    (get_enhanced_info idleState 100 "203.0.113.7" wUrl unavailEngine).2.2 = STRATEGY_ATTEMPTS
    ∧ (get_enhanced_info idleState 100 "203.0.113.7" wUrl unavailEngine).1 = InfoResp.unavailable
    ∧ STRATEGY_ATTEMPTS ≠ 1 := by decide

/-- C2 (amended).  An Unavailable-classified failure does not short-circuit
the job: the loop has no classification-based early exit, so the engine is
invoked for all 6 catalog attempts even when every failure is Unavailable,
and only then does the job error, the route mapping the final message to the
unavailable (404) response. -/
theorem c2_unavailable_amended :
    ∀ (st : ServerState) (now : Nat) (ip : String) (url : Str)
      (engine : Nat → EngineResult) (e : Str),
      url ≠ [] →
      (is_rate_limited st.request_limiter ip "info" now).1.1 = false →
      st.failed_attempts (ultra_fast_hash url) ≤ 5 →
      get_cached_data st.memory_cache now (infoKeyOf url) = none →
      (∀ a, a < STRATEGY_ATTEMPTS → engine a = .exc e) →
      classifyInfoError (finalInfoError (some e)) = InfoResp.unavailable →
      (get_enhanced_info st now ip url engine).1 = InfoResp.unavailable
      ∧ (get_enhanced_info st now ip url engine).2.2 = STRATEGY_ATTEMPTS := by
  intro st now ip url engine e hurl hlim hfail hcache heng hclass
  have h := get_enhanced_info_allFail st now ip url engine (fun _ => e)
    hurl hlim hfail hcache heng
  exact ⟨h.1.trans hclass, h.2.1⟩

/-- Witness for C2 (amended) at the idle server and the always-unavailable
engine. -/
theorem c2_unavailable_amended_witness :
    (get_enhanced_info idleState 100 "198.51.100.2" wUrl unavailEngine).1 = InfoResp.unavailable
    ∧ (get_enhanced_info idleState 100 "198.51.100.2" wUrl unavailEngine).2.2
        = STRATEGY_ATTEMPTS :=
  c2_unavailable_amended idleState 100 "198.51.100.2" wUrl unavailEngine
    ("Video unavailable".toList) (by decide) (by decide) (by decide) (by decide)
    (fun _ _ => rfl) (by decide)

/-- C5.  A cache `set(k, v)` immediately followed by `get(k)` at the same
instant returns `v`, and once the TTL has elapsed (`CACHE_DURATION` seconds
after the write) `get(k)` is a miss. -/
theorem c5_cache_set_get_ttl :
    ∀ (α : Type) (c : CacheMap α) (now : Nat) (k : Str) (v : α),
      get_cached_data (set_cached_data c now k v) now k = some v
      ∧ (∀ t, now + CACHE_DURATION ≤ t →
          get_cached_data (set_cached_data c now k v) t k = none) := by
  intro α c now k v
  constructor
  · simp [get_cached_data, set_cached_data, CACHE_DURATION]
  · intro t ht
    have : ¬ t < now + CACHE_DURATION := by omega
    simp [get_cached_data, set_cached_data, this]

/-- Witness for C5: a fresh write is readable at once and missing 5000
seconds later (the TTL is 3600). -/
theorem c5_cache_witness :
    get_cached_data (set_cached_data emptyNatCache 0 ("k".toList) 7) 0 ("k".toList) = some 7
    ∧ (0 + CACHE_DURATION ≤ 5000
        ∧ get_cached_data (set_cached_data emptyNatCache 0 ("k".toList) 7) 5000 ("k".toList)
            = none) :=
  ⟨(c5_cache_set_get_ttl Nat emptyNatCache 0 ("k".toList) 7).1,
   by decide,
   (c5_cache_set_get_ttl Nat emptyNatCache 0 ("k".toList) 7).2 5000 (by decide)⟩

/-- C3 (counterexample).  The claim says the normalized payload truncates
the description and carries a deduplicated, sorted, capped format list.  The
processed payload built at app.py lines 557-566 contains no description key
and no format list at all, even when the raw record has both. -/
theorem c3_payload_shape_cex :
    (((processInfo sampleRaw "youtube" 0).map Prod.fst).contains "description") = false
    ∧ (((processInfo sampleRaw "youtube" 0).map Prod.fst).contains "formats") = false
    ∧ (((processInfo sampleRaw "youtube" 0).map Prod.fst).contains "available_qualities") = false
    ∧ sampleRaw.description ≠ none
    ∧ sampleRaw.formats ≠ [] := by decide

/-- C3 (amended).  The payload of a successful extraction has exactly the
eight keys of the source dictionary — no description and no format list, so
no format deduplication, sorting or capping occurs; the title is truncated
to 100 characters and the uploader to 50; and the payload written to the
cache is the payload returned to the caller. -/
theorem c3_normalization_amended :
    (∀ (i : RawInfo) (p : String) (a : Nat),
      (processInfo i p a).map Prod.fst
        = ["title", "duration", "uploader", "thumbnail", "platform",
           "extraction_method", "view_count", "upload_date"])
    ∧ (∀ (i : RawInfo) (p : String) (a : Nat) (v : Str),
        ("title", PValue.s v) ∈ processInfo i p a → v.length ≤ 100)
    ∧ (∀ (i : RawInfo) (p : String) (a : Nat) (v : Str),
        ("uploader", PValue.s v) ∈ processInfo i p a → v.length ≤ 50)
    ∧ (∀ (c : CacheMap Payload) (now : Nat) (url : Str) (engine : Nat → EngineResult)
        (pl : Payload) (n : Nat),
        (extract_info_with_enhanced_fallback c now url engine).1 = .ok pl n → 0 < n →
        get_cached_data (extract_info_with_enhanced_fallback c now url engine).2 now
          (infoKeyOf url) = some pl) := by
  refine ⟨?_, ?_, ?_, ?_⟩
  · intro i p a
    rfl
  · intro i p a v h
    simp [processInfo] at h
    subst h
    simp [List.length_take]
  · intro i p a v h
    simp [processInfo] at h
    subst h
    simp [List.length_take]
  · intro c now url engine pl n h hn
    unfold extract_info_with_enhanced_fallback at h ⊢
    generalize hr : get_cached_data c now (infoKeyOf url) = r at h ⊢
    cases r with
    | some p0 =>
      simp only [] at h
      obtain ⟨-, h0⟩ := ExtractOutcome.ok.inj h
      omega
    | none =>
      simp only [] at h ⊢
      generalize hl :
        extractLoop (detect_platform url) engine (List.range STRATEGY_ATTEMPTS) none 0 = s
          at h ⊢
      cases s with
      | ok q m =>
        simp only [] at h ⊢
        obtain ⟨hq, -⟩ := ExtractOutcome.ok.inj h
        subst hq
        have hlt : now < now + CACHE_DURATION := by
          have : 0 < CACHE_DURATION := by decide
          omega
        simp [get_cached_data, set_cached_data, hlt]
      | failed last m =>
        simp only [] at h
        exact absurd h (by simp)

/-- Witness for C3 (amended): the cache round-trip conjunct at a concrete
successful extraction. -/
theorem c3_normalization_amended_witness :
    (0:Nat) < 1
    ∧ get_cached_data
        (extract_info_with_enhanced_fallback emptyCache 0 wUrl okEngine).2 0 (infoKeyOf wUrl)
        = some (processInfo sampleRaw "youtube" 0) :=
  ⟨by decide,
   c3_normalization_amended.2.2.2 emptyCache 0 wUrl okEngine
     (processInfo sampleRaw "youtube" 0) 1 (by decide) (by decide)⟩

/-- C4 (counterexample).  The claim says an oversized artifact is deleted
and the job reports a size-limit error.  An artifact one byte over
`MAX_FILE_SIZE` is instead reported completed, with its path and size kept:
the source never compares the artifact size against `MAX_FILE_SIZE` (which
only caps request bodies via `MAX_CONTENT_LENGTH`). -/
theorem c4_oversized_completed_cex :
    (download_with_enhanced_fallback bigFileEngine none).1.kind = StatusKind.completed
    ∧ (download_with_enhanced_fallback bigFileEngine none).1.file_size = MAX_FILE_SIZE + 1
    ∧ MAX_FILE_SIZE < (download_with_enhanced_fallback bigFileEngine none).1.file_size
    ∧ (download_with_enhanced_fallback bigFileEngine none).1.file_path
        = some ("big.mp4".toList) := by decide

/-- C4 (amended).  Before completing, the attempt loop verifies the artifact
exists with more than 1000 bytes (the directory-scan filter); no maximum-size
check exists: any artifact passing the 1000-byte floor — however large — is
reported completed with its full size, never deleted. -/
theorem c4_artifact_check_amended :
    (∀ (engine : Nat → DlAttemptResult) (att : List Nat) (last : Option Str) (inv : Nat)
       (p : Str) (sz : Nat) (l' : Option Str) (n : Nat),
      dlLoop engine att last inv = (some (p, sz), l', n) → 1000 < sz)
    ∧ (∀ (p : Str) (sz : Nat), 1000 < sz →
      (download_with_enhanced_fallback (fun _ => DlAttemptResult.file p sz) none).1
        = completedStatus p sz) := by
  constructor
  · intro engine att
    induction att with
    | nil =>
      intro last inv p sz l' n h
      simp [dlLoop] at h
    | cons a rest ih =>
      intro last inv p sz l' n h
      cases he : engine a with
      | file p0 sz0 =>
        simp only [dlLoop, he] at h
        by_cases hsz : 1000 < sz0
        · rw [if_pos hsz] at h
          simp only [Prod.mk.injEq, Option.some.injEq] at h
          obtain ⟨⟨-, h2⟩, -⟩ := h
          omega
        · rw [if_neg hsz] at h
          exact ih last (inv + 1) p sz l' n h
      | noFile =>
        simp only [dlLoop, he] at h
        exact ih last (inv + 1) p sz l' n h
      | timedOut =>
        simp only [dlLoop, he] at h
        exact ih _ (inv + 1) p sz l' n h
      | exc e =>
        simp only [dlLoop, he] at h
        exact ih _ (inv + 1) p sz l' n h
  · intro p sz h
    rw [download_with_enhanced_fallback, range_six]
    simp [dlLoop, if_pos h]

/-- Witness for C4 (amended): the loop's acceptance of a concrete 5000-byte
artifact implies the floor, and an artifact one byte over `MAX_FILE_SIZE`
still completes. -/
theorem c4_artifact_check_amended_witness :
    (1000:Nat) < 5000
    ∧ (download_with_enhanced_fallback
        (fun _ => DlAttemptResult.file ("big.mp4".toList) (MAX_FILE_SIZE + 1)) none).1
        = completedStatus ("big.mp4".toList) (MAX_FILE_SIZE + 1) :=
  ⟨c4_artifact_check_amended.1 okFileEngine (List.range STRATEGY_ATTEMPTS) none 0
      ("video.mp4".toList) 5000 none 1 (by decide),
   c4_artifact_check_amended.2 ("big.mp4".toList) (MAX_FILE_SIZE + 1) (by decide)⟩

/-- C6.  When the count of jobs in the downloading state equals
`MAX_CONCURRENT_DOWNLOADS`, the next admission attempt on `/api/download` is
rejected with the capacity error carrying `retry_after = 60 > 0`, and the
job registry and failure counters are untouched (no job record is
created). -/
theorem c6_capacity_rejection :
    ∀ (st : ServerState) (now : Nat) (ip : String) (url : Str) (q newId : String),
      url ≠ [] →
      VALID_QUALITIES.contains q = true →
      (is_rate_limited st.request_limiter ip "download" now).1.1 = false →
      countDownloading st.download_status = MAX_CONCURRENT_DOWNLOADS →
      (start_enhanced_download st now ip url q newId).1 = DlStartResp.atCapacity 60
      ∧ (0:Nat) < 60
      ∧ (start_enhanced_download st now ip url q newId).2.download_status = st.download_status
      ∧ (start_enhanced_download st now ip url q newId).2.failed_attempts
          = st.failed_attempts := by
  intro st now ip url q newId hurl hq hlim hcap
  have hfull : MAX_CONCURRENT_DOWNLOADS ≤ countDownloading st.download_status := by omega
  have hmem : q ∈ VALID_QUALITIES := by simpa using hq
  simp [start_enhanced_download, if_neg hurl, hq, hmem, hlim, hfull]

set_option maxRecDepth 8192 in
/-- Witness for C6 at a server holding exactly 200 downloading jobs. -/
theorem c6_capacity_rejection_witness :
    (start_enhanced_download capState 100 "198.51.100.9" wUrl "best" "new-id").1
      = DlStartResp.atCapacity 60
    ∧ (0:Nat) < 60
    ∧ (start_enhanced_download capState 100 "198.51.100.9" wUrl "best" "new-id").2.download_status
        = capState.download_status
    ∧ (start_enhanced_download capState 100 "198.51.100.9" wUrl "best" "new-id").2.failed_attempts
        = capState.failed_attempts :=
  c6_capacity_rejection capState 100 "198.51.100.9" wUrl "best" "new-id"
    (by decide) (by decide) (by decide) (by decide)

/-- C7.  Rate limiting is a fixed-window counter per
`(client identity, endpoint class)` bucket: the download threshold (10) is
strictly stricter than the metadata threshold (30); a limited request's
`retry_after` equals the remaining window time; a call touches no other
bucket, and in particular the info and download buckets of one client are
independent; an elapsed window resets the counter to a fresh window anchored
at the current time, otherwise the counter increments within the stored
window; and the limited verdict is exactly the post-increment count
exceeding the endpoint threshold. -/
theorem c7_rate_limit_windows :
    (limits "download").1 < (limits "info").1
    ∧ (∀ (lims : String → Limiter) (ip e : String) (now : Nat),
        (is_rate_limited lims ip e now).1.1 = true →
        (is_rate_limited lims ip e now).1.2
          = ((is_rate_limited lims ip e now).2 (ip ++ "_" ++ e)).reset_time - now)
    ∧ (∀ (lims : String → Limiter) (ip e : String) (now : Nat) (q : String),
        q ≠ ip ++ "_" ++ e → (is_rate_limited lims ip e now).2 q = lims q)
    ∧ (∀ (lims : String → Limiter) (ip : String) (now : Nat),
        (is_rate_limited lims ip "download" now).2 (ip ++ "_" ++ "info")
          = lims (ip ++ "_" ++ "info"))
    ∧ (∀ (lims : String → Limiter) (ip e : String) (now : Nat),
        (lims (ip ++ "_" ++ e)).reset_time < now →
        ((is_rate_limited lims ip e now).2 (ip ++ "_" ++ e)).count = 1
        ∧ ((is_rate_limited lims ip e now).2 (ip ++ "_" ++ e)).reset_time
            = now + (limits e).2)
    ∧ (∀ (lims : String → Limiter) (ip e : String) (now : Nat),
        ¬ (lims (ip ++ "_" ++ e)).reset_time < now →
        ((is_rate_limited lims ip e now).2 (ip ++ "_" ++ e)).count
            = (lims (ip ++ "_" ++ e)).count + 1
        ∧ ((is_rate_limited lims ip e now).2 (ip ++ "_" ++ e)).reset_time
            = (lims (ip ++ "_" ++ e)).reset_time)
    ∧ (∀ (lims : String → Limiter) (ip e : String) (now : Nat),
        (is_rate_limited lims ip e now).1.1
          = decide ((limits e).1
              < ((is_rate_limited lims ip e now).2 (ip ++ "_" ++ e)).count)) := by
  refine ⟨by decide, ?_, ?_, ?_, ?_, ?_, ?_⟩
  · intro lims ip e now h
    simp only [is_rate_limited] at h ⊢
    simp only [h]
    simp
  · intro lims ip e now q hq
    simp [is_rate_limited, if_neg hq]
  · intro lims ip now
    have hne : ip ++ "_" ++ "info" ≠ ip ++ "_" ++ "download" := by
      intro h
      have hlen := congrArg String.length h
      simp only [String.length_append] at hlen
      have h4 : "info".length = 4 := rfl
      have h8 : "download".length = 8 := rfl
      rw [h4, h8] at hlen
      omega
    simp [is_rate_limited, if_neg hne]
  · intro lims ip e now h
    simp [is_rate_limited, if_pos h]
  · intro lims ip e now h
    simp [is_rate_limited, if_neg h]
  · intro lims ip e now
    simp [is_rate_limited]

/-- Witness for C7: the hypothesis-bearing window facts at concrete buckets
(a bucket at count 30 inside a window ending at 500, queried at time 100, and
a bucket whose window ended at 50). -/
theorem c7_rate_limit_windows_witness :
    (is_rate_limited (fun _ => (⟨30, 500⟩ : Limiter)) "1.1.1.1" "download" 100).1.2
      = ((is_rate_limited (fun _ => (⟨30, 500⟩ : Limiter)) "1.1.1.1" "download" 100).2
          ("1.1.1.1" ++ "_" ++ "download")).reset_time - 100
    ∧ (is_rate_limited (fun _ => (⟨30, 500⟩ : Limiter)) "1.1.1.1" "download" 100).2 "other"
        = (fun _ => (⟨30, 500⟩ : Limiter)) "other"
    ∧ ((is_rate_limited (fun _ => (⟨7, 50⟩ : Limiter)) "1.1.1.1" "info" 100).2
          ("1.1.1.1" ++ "_" ++ "info")).count = 1
    ∧ ((is_rate_limited (fun _ => (⟨7, 50⟩ : Limiter)) "1.1.1.1" "info" 100).2
          ("1.1.1.1" ++ "_" ++ "info")).reset_time = 100 + (limits "info").2
    ∧ ((is_rate_limited (fun _ => (⟨30, 500⟩ : Limiter)) "1.1.1.1" "download" 100).2
          ("1.1.1.1" ++ "_" ++ "download")).count
        = ((fun _ => (⟨30, 500⟩ : Limiter)) ("1.1.1.1" ++ "_" ++ "download")).count + 1 :=
  ⟨c7_rate_limit_windows.2.1 (fun _ => ⟨30, 500⟩) "1.1.1.1" "download" 100 (by decide),
   c7_rate_limit_windows.2.2.1 (fun _ => ⟨30, 500⟩) "1.1.1.1" "download" 100 "other" (by decide),
   (c7_rate_limit_windows.2.2.2.2.1 (fun _ => ⟨7, 50⟩) "1.1.1.1" "info" 100 (by decide)).1,
   (c7_rate_limit_windows.2.2.2.2.1 (fun _ => ⟨7, 50⟩) "1.1.1.1" "info" 100 (by decide)).2,
   (c7_rate_limit_windows.2.2.2.2.2.1 (fun _ => ⟨30, 500⟩) "1.1.1.1" "download" 100
      (by decide)).1⟩

/-- C8 (counterexample).  The claim says progress is monotonically
non-decreasing until a terminal state.  Each attempt constructs a fresh
progress hook writing to the same job record and recomputes the percent from
that attempt's own byte counts, so progress drops when a failed attempt at
50% is retried and the new attempt reports 1%: the job is still
`downloading` (non-terminal) and its reported progress decreased. -/
theorem c8_progress_decrease_cex :
    (enhancedProgressHook ⟨0⟩ 2000 dlStatus ⟨true, 100, 50, 7, 3⟩).2.progress = 50
    ∧ (enhancedProgressHook ⟨0⟩ 4000
        (enhancedProgressHook ⟨0⟩ 2000 dlStatus ⟨true, 100, 50, 7, 3⟩).2
        ⟨true, 100, 1, 7, 3⟩).2.progress = 1
    ∧ (enhancedProgressHook ⟨0⟩ 4000
        (enhancedProgressHook ⟨0⟩ 2000 dlStatus ⟨true, 100, 50, 7, 3⟩).2
        ⟨true, 100, 1, 7, 3⟩).2.kind = StatusKind.downloading
    ∧ (1:Nat) < 50 := by decide

/-- C8 (amended).  Progress is non-decreasing only within one attempt: a
throttled callback leaves the record unchanged, and across two applied
callbacks reporting the same positive total with non-decreasing downloaded
bytes, the written percent `min 99 (downloaded * 100 / total)` is
non-decreasing.  Across retried attempts the percent restarts from the new
attempt's byte counts and may decrease. -/
theorem c8_progress_amended :
    (∀ (hs : HookState) (now : Nat) (st : JobStatus) (d : ProgressData),
      now - hs.last_update < UPDATE_INTERVAL → enhancedProgressHook hs now st d = (hs, st))
    ∧ (∀ (hs1 hs2 : HookState) (t1 t2 : Nat) (st : JobStatus) (d1 d2 : ProgressData),
      d1.downloading = true → d2.downloading = true →
      d1.total_bytes = d2.total_bytes → 0 < d2.total_bytes →
      d1.downloaded_bytes ≤ d2.downloaded_bytes →
      UPDATE_INTERVAL ≤ t1 - hs1.last_update →
      UPDATE_INTERVAL ≤ t2 - hs2.last_update →
      (enhancedProgressHook hs1 t1 st d1).2.progress
        ≤ (enhancedProgressHook hs2 t2 (enhancedProgressHook hs1 t1 st d1).2 d2).2.progress) := by
  constructor
  · intro hs now st d h
    simp [enhancedProgressHook, if_pos h]
  · intro hs1 hs2 t1 t2 st d1 d2 hd1 hd2 htot hpos hmono ht1 ht2
    have h1 : ¬ t1 - hs1.last_update < UPDATE_INTERVAL := by omega
    have h2 : ¬ t2 - hs2.last_update < UPDATE_INTERVAL := by omega
    have hpos1 : 0 < d1.total_bytes := htot ▸ hpos
    have e1 : (enhancedProgressHook hs1 t1 st d1).2.progress
        = min 99 (d1.downloaded_bytes * 100 / d1.total_bytes) := by
      simp [enhancedProgressHook, if_neg h1, hd1, hpos1]
    have e2 : ∀ st2 : JobStatus, (enhancedProgressHook hs2 t2 st2 d2).2.progress
        = min 99 (d2.downloaded_bytes * 100 / d2.total_bytes) := by
      intro st2
      simp [enhancedProgressHook, if_neg h2, hd2, hpos]
    rw [e1, e2, htot]
    exact min_le_min (le_refl 99) (Nat.div_le_div_right (mul_le_mul_right' hmono 100))

/-- Witness for C8 (amended): a throttled call 500 ms after the last update
is a no-op, and two applied callbacks at 50 then 60 of 100 bytes report
non-decreasing progress. -/
theorem c8_progress_amended_witness :
    enhancedProgressHook ⟨0⟩ 500 dlStatus ⟨true, 100, 50, 7, 3⟩ = (⟨0⟩, dlStatus)
    ∧ (enhancedProgressHook ⟨0⟩ 2000 dlStatus ⟨true, 100, 50, 7, 3⟩).2.progress
        ≤ (enhancedProgressHook ⟨0⟩ 4000
            (enhancedProgressHook ⟨0⟩ 2000 dlStatus ⟨true, 100, 50, 7, 3⟩).2
            ⟨true, 100, 60, 7, 3⟩).2.progress :=
  ⟨c8_progress_amended.1 ⟨0⟩ 500 dlStatus ⟨true, 100, 50, 7, 3⟩ (by decide),
   c8_progress_amended.2 ⟨0⟩ ⟨0⟩ 2000 4000 dlStatus ⟨true, 100, 50, 7, 3⟩ ⟨true, 100, 60, 7, 3⟩
     (by decide) (by decide) (by decide) (by decide) (by decide) (by decide) (by decide)⟩

/-- C9 (counterexample).  The claim says a job whose artifact file no longer
exists is never reported as completed.  The `/api/status` handler performs no
filesystem check: for a registry holding a completed job whose recorded path
no file backs (the filesystem oracle is empty), it still reports the job
completed. -/
theorem c9_completed_without_file_cex :
    reportedKind (get_enhanced_status ghostDs "job1") = some StatusKind.completed
    ∧ emptyFs ("gone.mp4".toList) = false
    ∧ (lookupStatus ghostDs "job1").map JobStatus.file_path
        = some (some ("gone.mp4".toList)) := by decide

/-- C9 (amended).  Only the file-serving endpoint enforces the invariant: it
never streams an artifact whose backing file is missing (serving implies the
file exists).  The status endpoint reports the stored record — `completed`
included — without consulting the filesystem, so a completed job with a
deleted artifact is still reported completed there. -/
theorem c9_artifact_serving_amended :
    (∀ (ds : List (String × JobStatus)) (fs : Str → Bool) (id : String) (p : Str),
      download_enhanced_file ds fs id = .served p → fs p = true)
    ∧ (∀ (ds : List (String × JobStatus)) (id : String) (st : JobStatus),
      lookupStatus ds id = some st →
      get_enhanced_status ds id = .ok { st with file_path := none }) := by
  constructor
  · intro ds fs id p h
    unfold download_enhanced_file at h
    generalize hr : lookupStatus ds id = r at h
    cases r with
    | none => simp at h
    | some st =>
      simp only [] at h
      split at h
      · generalize hfp : st.file_path = fp at h
        cases fp with
        | none => simp at h
        | some q =>
          simp only [] at h
          split at h
          · simp at h
          · split at h
            · rename_i hfs
              obtain hq := FileResp.served.inj h
              subst hq
              exact hfs
            · simp at h
      · simp at h
  · intro ds id st h
    unfold get_enhanced_status
    rw [h]

/-- Witness for C9 (amended): a concrete served file implies its existence,
and the status report of a stored completed record. -/
theorem c9_artifact_serving_amended_witness :
    singleFs ("vid.mp4".toList) ("vid.mp4".toList) = true
    ∧ get_enhanced_status ghostDs "job1"
        = .ok { completedStatus ("gone.mp4".toList) 123456 with file_path := none } :=
  ⟨c9_artifact_serving_amended.1 servedDs (singleFs ("vid.mp4".toList)) "j2"
      ("vid.mp4".toList) (by decide),
   c9_artifact_serving_amended.2 ghostDs "job1" (completedStatus ("gone.mp4".toList) 123456)
      (by decide)⟩

/-- C10.  A URL whose recorded failure count exceeds the threshold (5 for
`/api/info`, 3 for `/api/download`) is rejected with a client error before
the engine is engaged: the info handler answers without any engine
invocation and without touching the failure counters or the job registry,
and the download handler answers without creating a job record.  A later
success resets the URL's failure count to zero, both on the info path and in
the download worker. -/
theorem c10_failure_gating :
    (∀ (st : ServerState) (now : Nat) (ip : String) (url : Str)
       (engine : Nat → EngineResult),
      url ≠ [] →
      (is_rate_limited st.request_limiter ip "info" now).1.1 = false →
      5 < st.failed_attempts (ultra_fast_hash url) →
      (get_enhanced_info st now ip url engine).1 = InfoResp.tooManyFailures
      ∧ (get_enhanced_info st now ip url engine).2.2 = 0
      ∧ (get_enhanced_info st now ip url engine).2.1.failed_attempts = st.failed_attempts
      ∧ (get_enhanced_info st now ip url engine).2.1.download_status = st.download_status)
    ∧ (∀ (st : ServerState) (now : Nat) (ip : String) (url : Str) (q newId : String),
      url ≠ [] →
      VALID_QUALITIES.contains q = true →
      (is_rate_limited st.request_limiter ip "download" now).1.1 = false →
      countDownloading st.download_status < MAX_CONCURRENT_DOWNLOADS →
      3 < st.failed_attempts (ultra_fast_hash url) →
      (start_enhanced_download st now ip url q newId).1 = DlStartResp.tooManyFailures
      ∧ (start_enhanced_download st now ip url q newId).2.download_status
          = st.download_status)
    ∧ (∀ (st : ServerState) (now : Nat) (ip : String) (url : Str)
       (engine : Nat → EngineResult) (pl : Payload) (n : Nat),
      url ≠ [] →
      (is_rate_limited st.request_limiter ip "info" now).1.1 = false →
      st.failed_attempts (ultra_fast_hash url) ≤ 5 →
      (extract_info_with_enhanced_fallback st.memory_cache now url engine).1 = .ok pl n →
      (get_enhanced_info st now ip url engine).2.1.failed_attempts (ultra_fast_hash url)
        = 0)
    ∧ (∀ (failed : Str → Nat) (url : Str) (engine : Nat → DlAttemptResult)
       (cmdResult : Option (Str × Nat)),
      (start_enhanced_async_download failed url engine cmdResult).2.kind
          = StatusKind.completed →
      (start_enhanced_async_download failed url engine cmdResult).1 (ultra_fast_hash url)
        = 0) := by
  refine ⟨?_, ?_, ?_, ?_⟩
  · intro st now ip url engine hurl hlim hgate
    simp [get_enhanced_info, if_neg hurl, hlim, hgate]
  · intro st now ip url q newId hurl hq hlim hcap hgate
    have hmem : q ∈ VALID_QUALITIES := by simpa using hq
    have hncap : ¬ MAX_CONCURRENT_DOWNLOADS ≤ countDownloading st.download_status := by omega
    simp [start_enhanced_download, if_neg hurl, hmem, hlim, hncap, hgate]
  · intro st now ip url engine pl n hurl hlim hfail hok
    have hgate : ¬ 5 < st.failed_attempts (ultra_fast_hash url) := by omega
    simp only [get_enhanced_info, if_neg hurl, hlim, Bool.false_eq_true, if_false, hgate]
    generalize he : extract_info_with_enhanced_fallback st.memory_cache now url engine = res
      at hok ⊢
    obtain ⟨o, c'⟩ := res
    cases o with
    | ok q m => simp [updateF]
    | failed last m => simp at hok
  · intro failed url engine cmdResult h
    unfold start_enhanced_async_download at h ⊢
    generalize hd : download_with_enhanced_fallback engine cmdResult = r at h ⊢
    cases hk : r.1.kind with
    | completed => simp [hk, updateF]
    | initializing => simp [hk] at h
    | downloading => simp [hk] at h
    | error => simp [hk] at h

/-- Witness for C10: the info gate at failure count 6, the download gate at
failure count 4, the info reset after a concrete successful extraction, and
the worker reset after a concrete completed download. -/
theorem c10_failure_gating_witness :
    (get_enhanced_info gatedInfoState 100 "203.0.113.5" wUrl okEngine).1
        = InfoResp.tooManyFailures
    ∧ (get_enhanced_info gatedInfoState 100 "203.0.113.5" wUrl okEngine).2.2 = 0
    ∧ (start_enhanced_download gatedDlState 100 "203.0.113.5" wUrl "720p" "id-1").1
        = DlStartResp.tooManyFailures
    ∧ (get_enhanced_info idleState 100 "203.0.113.5" wUrl okEngine).2.1.failed_attempts
        (ultra_fast_hash wUrl) = 0
    ∧ (start_enhanced_async_download (fun _ => 2) wUrl okFileEngine none).1
        (ultra_fast_hash wUrl) = 0 :=
  ⟨(c10_failure_gating.1 gatedInfoState 100 "203.0.113.5" wUrl okEngine
      (by decide) (by decide) (by decide)).1,
   (c10_failure_gating.1 gatedInfoState 100 "203.0.113.5" wUrl okEngine
      (by decide) (by decide) (by decide)).2.1,
   (c10_failure_gating.2.1 gatedDlState 100 "203.0.113.5" wUrl "720p" "id-1"
      (by decide) (by decide) (by decide) (by decide) (by decide)).1,
   c10_failure_gating.2.2.1 idleState 100 "203.0.113.5" wUrl okEngine
      (processInfo sampleRaw "youtube" 0) 1 (by decide) (by decide) (by decide) (by decide),
   c10_failure_gating.2.2.2 (fun _ => 2) wUrl okFileEngine none (by decide)⟩
